import Mathlib

/-!
Verification of the Baby Plus e-commerce storefront's order/cart/inventory core.

The client-side code under `src/client` and `src/unnamed` is embedded directly
(pricing calculation, order payload construction, product-detail quantity
controls).  Server-side operations (order persistence, status transitions,
stock reservation) are not present in the source tree; they are modelled from
the design spec and marked as such in their doc comments.

Money amounts are embedded as rationals: the source carries prices as decimal
strings and converts with `parseFloat`; the arithmetic the spec describes is
exact decimal arithmetic.
-/

namespace BabyPlus

/-- Shipping/billing address value object (checkout.tsx lines 106-126). -/
structure Address where
  firstName : String
  lastName : String
  street : String
  city : String
  state : String
  zipCode : String
  country : String
  phone : Option String
deriving DecidableEq, Repr

/-- One line of a user's cart, as consumed by checkout.tsx: a product
reference with a price snapshot, size, color and quantity. -/
structure CartItem where
  productId : ℕ
  productName : String
  quantity : ℕ
  size : String
  color : String
  price : ℚ
deriving DecidableEq, Repr

/-- Denormalized order line as built by `createOrderMutation`
(checkout.tsx lines 139-147). -/
structure OrderItemData where
  productId : ℕ
  productName : String
  quantity : ℕ
  size : String
  color : String
  price : ℚ
  total : ℚ
deriving DecidableEq, Repr

/-- Order payload built by `createOrderMutation` (checkout.tsx lines 128-148). -/
structure OrderData where
  orderNumber : String
  status : String
  subtotal : ℚ
  tax : ℚ
  shipping : ℚ
  total : ℚ
  shippingAddress : Address
  billingAddress : Address
  paymentMethod : String
  paymentStatus : String
  items : List OrderItemData
deriving DecidableEq, Repr

/-- Cart subtotal: `items.reduce((sum, item) => sum + (parseFloat(item.price) * item.quantity), 0)`
(checkout.tsx lines 101 and 234). -/
def subtotal (items : List CartItem) : ℚ :=
  items.foldl (fun sum item => sum + item.price * (item.quantity : ℚ)) 0

/-- Shipping fee: `subtotal >= 50 ? 0 : 9.99` (checkout.tsx lines 102 and 235). -/
def shippingFee (sub : ℚ) : ℚ :=
  if 50 ≤ sub then 0 else 999 / 100

/-- Tax: `subtotal * 0.08` (checkout.tsx lines 103 and 236). -/
def taxAmount (sub : ℚ) : ℚ :=
  sub * (8 / 100)

/-- Grand total: `subtotal + shipping + tax` (checkout.tsx lines 104 and 237). -/
def totalAmount (sub : ℚ) : ℚ :=
  sub + shippingFee sub + taxAmount sub

/-- Denormalized copy of one cart line into an order line
(checkout.tsx lines 139-147): product id, name, quantity, size, color and
price are copied, the line total is `parseFloat(item.price) * item.quantity`. -/
def orderItemOf (item : CartItem) : OrderItemData :=
  { productId := item.productId
    productName := item.productName
    quantity := item.quantity
    size := item.size
    color := item.color
    price := item.price
    total := item.price * (item.quantity : ℚ) }

/-- Order payload construction from the cart (checkout.tsx lines 100-148):
pricing is computed from the line items, the order number is
`BP-` followed by `Date.now()`, status and payment status start `pending`,
and the items are denormalized copies of the cart lines. -/
def mkOrderData (now : ℕ) (items : List CartItem)
    (shippingAddress billingAddress : Address) (paymentMethod : String) : OrderData :=
  let sub := subtotal items
  { orderNumber := "BP-" ++ toString now
    status := "pending"
    subtotal := sub
    tax := taxAmount sub
    shipping := shippingFee sub
    total := sub + shippingFee sub + taxAmount sub
    shippingAddress := shippingAddress
    billingAddress := billingAddress
    paymentMethod := paymentMethod
    paymentStatus := "pending"
    items := items.map orderItemOf }

/-- The fold in the source computes the sum of the per-line products. -/
theorem foldl_add_eq_sum (items : List CartItem) (init : ℚ) :
    items.foldl (fun sum item => sum + item.price * (item.quantity : ℚ)) init =
      init + (items.map fun item => item.price * (item.quantity : ℚ)).sum := by
  induction items generalizing init with
  | nil => simp
  | cons hd tl ih =>
    simp only [List.foldl_cons, List.map_cons, List.sum_cons, ih]
    ring

/-- The subtotal equals the sum over line items of price times quantity. -/
theorem subtotal_eq_sum (items : List CartItem) :
    subtotal items = (items.map fun item => item.price * (item.quantity : ℚ)).sum := by
  simpa using foldl_add_eq_sum items 0

/-- Demo cart line of claim C1: one item of price 10.00 and quantity 2. -/
def demoItem : CartItem :=
  { productId := 1, productName := "Organic Onesie", quantity := 2
    size := "3M", color := "Blue", price := 10 }

/-- C1: the pricing calculation is a pure function of the cart's line items:
subtotal is the sum over items of price times quantity, shipping is 0 when
the subtotal is at least 50 and 9.99 otherwise, tax is subtotal times 0.08,
and total is subtotal plus shipping plus tax; the cart with one item of
price 10.00 and quantity 2 yields subtotal 20.00, shipping 9.99, tax 1.60,
total 31.59. -/
theorem pricing_pure_function (items : List CartItem) :
    subtotal items = (items.map fun item => item.price * (item.quantity : ℚ)).sum ∧
    shippingFee (subtotal items) = (if 50 ≤ subtotal items then 0 else 999 / 100) ∧
    taxAmount (subtotal items) = subtotal items * (8 / 100) ∧
    totalAmount (subtotal items) =
      subtotal items + shippingFee (subtotal items) + taxAmount (subtotal items) ∧
    subtotal [demoItem] = 20 ∧
    shippingFee (subtotal [demoItem]) = 999 / 100 ∧
    taxAmount (subtotal [demoItem]) = 8 / 5 ∧
    totalAmount (subtotal [demoItem]) = 3159 / 100 := by
  refine ⟨subtotal_eq_sum items, rfl, rfl, rfl, ?_, ?_, ?_, ?_⟩ <;>
    norm_num [subtotal, shippingFee, taxAmount, totalAmount, demoItem]

/-- Catalog product record (shared schema: id, name, price, single stock
integer per product). -/
structure Product where
  id : ℕ
  name : String
  price : ℚ
  stock : ℕ
deriving DecidableEq, Repr

/-- Error taxonomy of the order core (spec section 7). -/
inductive OrderError where
  | emptyCart
  | insufficientStock
  | illegalTransition
  | notFound
deriving DecidableEq, Repr

/-- Backing-store state seen by the order core: per-product stock counts,
the user's cart, the product catalog and the persisted orders. -/
structure ServerState where
  stock : ℕ → ℕ
  products : List Product
  cart : List CartItem
  orders : List OrderData

/-- Modelled from the spec: `reserveStock(productId, quantity)` of the
Inventory Reconciler (spec 4.4), whose server implementation is not in the
source tree.  Atomically checks `stock >= quantity` and decrements, failing
with `InsufficientStock` otherwise; the whole read-check-decrement is one
step. -/
def reserveStock (stock : ℕ → ℕ) (productId quantity : ℕ) :
    Except OrderError (ℕ → ℕ) :=
  if quantity ≤ stock productId then
    .ok fun p => if p = productId then stock p - quantity else stock p
  else
    .error .insufficientStock

/-- Modelled from the spec: `releaseStock(productId, quantity)` of the
Inventory Reconciler (spec 4.4), whose server implementation is not in the
source tree.  Increments stock back; used on cancellation. -/
def releaseStock (stock : ℕ → ℕ) (productId quantity : ℕ) : ℕ → ℕ :=
  fun p => if p = productId then stock p + quantity else stock p

/-- Modelled from the spec: stock reservation for every line of the order,
all-or-nothing (spec 4.3). -/
def reserveAll (stock : ℕ → ℕ) : List CartItem → Except OrderError (ℕ → ℕ)
  | [] => .ok stock
  | item :: rest =>
    match reserveStock stock item.productId item.quantity with
    | .error e => .error e
    | .ok s => reserveAll s rest

/-- Modelled from the spec: stock restoration for every line of a cancelled
order (spec 4.3 and 4.4). -/
def releaseAll (stock : ℕ → ℕ) (items : List OrderItemData) : ℕ → ℕ :=
  items.foldl (fun s item => releaseStock s item.productId item.quantity) stock

/-- Client order-creation request as posted by checkout.tsx lines 128-150:
client-computed totals travel alongside the addresses and payment method. -/
structure OrderRequest where
  clientSubtotal : ℚ
  clientTax : ℚ
  clientShipping : ℚ
  clientTotal : ℚ
  shippingAddress : Address
  billingAddress : Address
  paymentMethod : String
deriving DecidableEq, Repr

/-- Modelled from the spec: the server-side `createOrder` (spec 4.3), whose
route handler is not in the source tree.  Reads the user's stored cart,
fails with `EmptyCart` if it has no items, recomputes pricing server-side
from the stored cart via the pricing calculator (never trusting the
client-submitted totals), reserves stock for every line all-or-nothing,
then persists the order with denormalized items and clears the cart.  The
order payload itself follows `mkOrderData` from checkout.tsx. -/
def createOrder (st : ServerState) (now : ℕ) (req : OrderRequest) :
    Except OrderError (ServerState × OrderData) :=
  if st.cart.isEmpty then .error .emptyCart
  else
    match reserveAll st.stock st.cart with
    | .error e => .error e
    | .ok newStock =>
      let order := mkOrderData now st.cart req.shippingAddress req.billingAddress
        req.paymentMethod
      .ok ({ stock := newStock, products := st.products, cart := [],
             orders := st.orders ++ [order] }, order)

/-- Modelled from the spec: the legal transitions of the order status state
machine (spec 4.3): pending to processing or cancelled, processing to
shipped or cancelled, shipped to delivered; delivered and cancelled are
terminal. -/
def legalTransition (fromStatus toStatus : String) : Bool :=
  (fromStatus == "pending" && (toStatus == "processing" || toStatus == "cancelled")) ||
  (fromStatus == "processing" && (toStatus == "shipped" || toStatus == "cancelled")) ||
  (fromStatus == "shipped" && toStatus == "delivered")

/-- Modelled from the spec: the server-side `updateStatus(orderId, newStatus)`
(spec 4.3), whose route handler is not in the source tree.  Validates the
transition against the state machine, failing with `IllegalTransition`
otherwise; a transition to cancelled restores the stock of every line. -/
def updateStatus (st : ServerState) (idx : ℕ) (newStatus : String) :
    Except OrderError ServerState :=
  match st.orders[idx]? with
  | none => .error .notFound
  | some o =>
    if legalTransition o.status newStatus then
      if newStatus == "cancelled" then
        .ok { stock := releaseAll st.stock o.items, products := st.products,
              cart := st.cart, orders := st.orders.set idx { o with status := newStatus } }
      else
        .ok { st with orders := st.orders.set idx { o with status := newStatus } }
    else
      .error .illegalTransition

/-- Modelled from the spec: an admin product edit (spec 4.3 design notes and
part_002 AdminDashboard), whose route handler is not in the source tree.
Only the catalog entry is replaced; orders are untouched. -/
def updateProduct (st : ServerState) (productId : ℕ) (p : Product) : ServerState :=
  { st with products := st.products.map fun q => if q.id = productId then p else q }

/-- Modelled from the spec: an admin product delete (part_002
`deleteProductMutation`), whose route handler is not in the source tree.
Only the catalog is touched; orders are untouched. -/
def deleteProduct (st : ServerState) (productId : ℕ) : ServerState :=
  { st with products := st.products.filter fun q => q.id != productId }

/-- Setting an index to an element with the same image under `f` preserves
the mapped list. -/
theorem map_set_of_fun_eq {α β : Type} (f : α → β) (l : List α) (i : ℕ) (a a' : α)
    (h : l[i]? = some a) (hf : f a' = f a) :
    (l.set i a').map f = l.map f := by
  induction l generalizing i with
  | nil => simp at h
  | cons x xs ih =>
    cases i with
    | zero =>
      simp only [List.getElem?_cons_zero, Option.some.injEq] at h
      subst h
      simp [hf]
    | succ j =>
      simp only [List.getElem?_cons_succ] at h
      simp [ih j h]

/-- A successful status update only rewrites the target order's status field:
any view of the orders that ignores the status is preserved. -/
theorem updateStatus_orders_map_eq {γ : Type} (f : OrderData → γ)
    (hf : ∀ (o : OrderData) (ns : String), f { o with status := ns } = f o)
    (st : ServerState) (idx : ℕ) (ns : String) (st' : ServerState)
    (h : updateStatus st idx ns = Except.ok st') :
    st'.orders.map f = st.orders.map f := by
  unfold updateStatus at h
  split at h
  · exact absurd h (by simp)
  next o ho =>
    split at h
    · split at h <;>
      · simp only [Except.ok.injEq] at h
        subst h
        exact map_set_of_fun_eq f st.orders idx o _ ho (hf o ns)
    · exact absurd h (by simp)

/-- C2: the persisted order's subtotal, tax, shipping and total are recomputed
server-side from the stored cart via the pricing calculator; two requests
identical except for the client-submitted totals produce the same stored
order. -/
theorem server_recomputes_totals (st st1 : ServerState) (now : ℕ)
    (r1 r2 : OrderRequest) (o1 : OrderData)
    (hs : r1.shippingAddress = r2.shippingAddress)
    (hb : r1.billingAddress = r2.billingAddress)
    (hp : r1.paymentMethod = r2.paymentMethod)
    (hc : createOrder st now r1 = Except.ok (st1, o1)) :
    createOrder st now r2 = Except.ok (st1, o1) ∧
    o1.subtotal = subtotal st.cart ∧
    o1.shipping = shippingFee (subtotal st.cart) ∧
    o1.tax = taxAmount (subtotal st.cart) ∧
    o1.total = totalAmount (subtotal st.cart) := by
  have hco : createOrder st now r2 = createOrder st now r1 := by
    unfold createOrder
    rw [hs, hb, hp]
  refine ⟨hco.trans hc, ?_⟩
  unfold createOrder at hc
  split at hc
  · exact absurd hc (by simp)
  · split at hc
    · exact absurd hc (by simp)
    · simp only [Except.ok.injEq, Prod.mk.injEq] at hc
      obtain ⟨-, ho⟩ := hc
      subst ho
      exact ⟨rfl, rfl, rfl, rfl⟩

/-- C3: at creation the order's total equals subtotal plus tax plus shipping
(exactly, hence within any rounding tolerance), and status updates never
recompute or change any of the four stored amounts. -/
theorem total_equation_invariant (now : ℕ) (items : List CartItem)
    (sa ba : Address) (pm : String)
    (st : ServerState) (idx : ℕ) (ns : String) (st' : ServerState)
    (h : updateStatus st idx ns = Except.ok st') :
    (mkOrderData now items sa ba pm).total =
      (mkOrderData now items sa ba pm).subtotal +
        (mkOrderData now items sa ba pm).tax +
        (mkOrderData now items sa ba pm).shipping ∧
    st'.orders.map (fun o => (o.subtotal, o.tax, o.shipping, o.total)) =
      st.orders.map (fun o => (o.subtotal, o.tax, o.shipping, o.total)) := by
  constructor
  · simp only [mkOrderData]
    ring
  · exact updateStatus_orders_map_eq (fun o => (o.subtotal, o.tax, o.shipping, o.total))
      (fun o ns => rfl) st idx ns st' h

/-- C4: an order's subtotal equals the sum over its own denormalized items of
unit price times quantity, and the denormalized item copies survive product
edits, product deletions and status updates unchanged. -/
theorem denormalized_items_frozen (now : ℕ) (items : List CartItem)
    (sa ba : Address) (pm : String)
    (st : ServerState) (idx : ℕ) (ns : String) (st' : ServerState)
    (productId : ℕ) (p : Product)
    (h : updateStatus st idx ns = Except.ok st') :
    (mkOrderData now items sa ba pm).subtotal =
      ((mkOrderData now items sa ba pm).items.map
        fun i => i.price * (i.quantity : ℚ)).sum ∧
    (updateProduct st productId p).orders = st.orders ∧
    (deleteProduct st productId).orders = st.orders ∧
    st'.orders.map OrderData.items = st.orders.map OrderData.items := by
  refine ⟨?_, rfl, rfl, ?_⟩
  · simp only [mkOrderData, List.map_map]
    rw [subtotal_eq_sum]
    rfl
  · exact updateStatus_orders_map_eq OrderData.items (fun o ns => rfl) st idx ns st' h

/-- Boolean success view of a status-update result. -/
def succeeded (r : Except OrderError ServerState) : Bool :=
  match r with
  | .ok _ => true
  | .error _ => false

/-- C5: a status update succeeds exactly when the requested transition is
legal under the state machine pending to processing to shipped to delivered
with cancelled reachable only from pending or processing, and fails with
IllegalTransition otherwise; in particular delivered to processing is
illegal and pending to cancelled is legal. -/
theorem update_status_state_machine (st : ServerState) (idx : ℕ)
    (o : OrderData) (ns : String) (h : st.orders[idx]? = some o) :
    succeeded (updateStatus st idx ns) = legalTransition o.status ns ∧
    (updateStatus st idx ns = Except.error OrderError.illegalTransition ↔
      legalTransition o.status ns = false) ∧
    legalTransition "delivered" "processing" = false ∧
    legalTransition "pending" "cancelled" = true := by
  have e : updateStatus st idx ns =
      if legalTransition o.status ns then
        if ns == "cancelled" then
          Except.ok { stock := releaseAll st.stock o.items, products := st.products,
                      cart := st.cart,
                      orders := st.orders.set idx { o with status := ns } }
        else
          Except.ok { st with orders := st.orders.set idx { o with status := ns } }
      else
        Except.error OrderError.illegalTransition := by
    unfold updateStatus
    rw [h]
  refine ⟨?_, ?_, rfl, rfl⟩ <;> rw [e] <;>
    cases hl : legalTransition o.status ns <;>
    cases hc : (ns == "cancelled") <;>
    simp [succeeded, hl, hc]

/-- C6: with an empty cart, order creation fails with EmptyCart and no order
is created. -/
theorem empty_cart_fails (st : ServerState) (now : ℕ) (req : OrderRequest)
    (h : st.cart = []) :
    createOrder st now req = Except.error OrderError.emptyCart := by
  unfold createOrder
  simp [h]

/-- C7: against a product with one unit in stock, two atomic reserveStock
steps of quantity one compose so that the first succeeds leaving stock zero
and the second fails with InsufficientStock; since the read-check-decrement
is one atomic step, in either interleaving exactly one of two concurrent
calls succeeds. -/
theorem concurrent_reserve_last_unit (stock : ℕ → ℕ) (productId : ℕ)
    (h : stock productId = 1) :
    reserveStock stock productId 1 =
      Except.ok (fun p => if p = productId then stock p - 1 else stock p) ∧
    (fun p => if p = productId then stock p - 1 else stock p) productId = 0 ∧
    reserveStock (fun p => if p = productId then stock p - 1 else stock p)
        productId 1 =
      Except.error OrderError.insufficientStock := by
  refine ⟨?_, ?_, ?_⟩
  · unfold reserveStock
    rw [if_pos (by omega)]
  · simp [h]
  · unfold reserveStock
    rw [if_neg (by simp [h])]

/-- Two stock releases commute. -/
theorem releaseStock_comm (s : ℕ → ℕ) (p1 q1 p2 q2 : ℕ) :
    releaseStock (releaseStock s p1 q1) p2 q2 =
      releaseStock (releaseStock s p2 q2) p1 q1 := by
  funext p
  unfold releaseStock
  split_ifs <;> omega

/-- Releasing the whole list commutes with one extra release. -/
theorem releaseAll_releaseStock (items : List OrderItemData) (s : ℕ → ℕ)
    (pid q : ℕ) :
    releaseAll (releaseStock s pid q) items =
      releaseStock (releaseAll s items) pid q := by
  induction items generalizing s with
  | nil => rfl
  | cons i rest ih =>
    simp only [releaseAll, List.foldl_cons] at *
    rw [releaseStock_comm s pid q i.productId i.quantity]
    exact ih _

/-- A single successful reservation is undone by the matching release. -/
theorem reserve_release_single (s s' : ℕ → ℕ) (pid q : ℕ)
    (h : reserveStock s pid q = Except.ok s') :
    releaseStock s' pid q = s := by
  unfold reserveStock at h
  split at h
  · next hle =>
    simp only [Except.ok.injEq] at h
    subst h
    funext p
    unfold releaseStock
    by_cases hp : p = pid
    · subst hp
      simp [Nat.sub_add_cancel hle]
    · simp [hp]
  · exact absurd h (by simp)

/-- Releasing every denormalized line of an order undoes the reservation of
the whole cart. -/
theorem reserveAll_releaseAll (items : List CartItem) (s s' : ℕ → ℕ)
    (h : reserveAll s items = Except.ok s') :
    releaseAll s' (items.map orderItemOf) = s := by
  induction items generalizing s with
  | nil =>
    simp only [reserveAll, Except.ok.injEq] at h
    subst h
    rfl
  | cons i rest ih =>
    simp only [reserveAll] at h
    split at h
    · exact absurd h (by simp)
    · next s1 hr =>
      have hrest : releaseAll s' (rest.map orderItemOf) = s1 := ih s1 h
      calc releaseAll s' ((i :: rest).map orderItemOf)
          = releaseAll (releaseStock s' i.productId i.quantity)
              (rest.map orderItemOf) := rfl
        _ = releaseStock (releaseAll s' (rest.map orderItemOf))
              i.productId i.quantity :=
            releaseAll_releaseStock (rest.map orderItemOf) s' i.productId i.quantity
        _ = releaseStock s1 i.productId i.quantity := by rw [hrest]
        _ = s := reserve_release_single s s1 i.productId i.quantity hr

/-- C8: cancelling an order restores the stock reserved at its creation:
creating an order from the cart and then cancelling it, with no operation
in between, leaves every product's stock as it was before the reservation. -/
theorem cancel_restores_stock (st st1 st2 : ServerState) (now : ℕ)
    (req : OrderRequest) (o : OrderData)
    (horders : st.orders = [])
    (hcreate : createOrder st now req = Except.ok (st1, o))
    (hcancel : updateStatus st1 0 "cancelled" = Except.ok st2) :
    st2.stock = st.stock := by
  unfold createOrder at hcreate
  split at hcreate
  · exact absurd hcreate (by simp)
  · split at hcreate
    · exact absurd hcreate (by simp)
    · next ns hra =>
      simp only [Except.ok.injEq, Prod.mk.injEq] at hcreate
      obtain ⟨hst1, ho⟩ := hcreate
      subst hst1 ho
      rw [horders] at hcancel
      unfold updateStatus at hcancel
      simp only [mkOrderData, List.nil_append, List.getElem?_cons_zero] at hcancel
      rw [show legalTransition "pending" "cancelled" = true from rfl] at hcancel
      simp only [if_true, String.reduceBEq, if_pos, Except.ok.injEq] at hcancel
      subst hcancel
      exact reserveAll_releaseAll st.cart st.stock ns hra

/-- Concrete address used by the witness scenarios. -/
def addrW : Address :=
  { firstName := "Jane", lastName := "Doe", street := "1 Main St",
    city := "Springfield", state := "IL", zipCode := "62701",
    country := "United States", phone := none }

/-- Concrete checkout request carrying the honest client-computed totals. -/
def reqW : OrderRequest :=
  { clientSubtotal := 20, clientTax := 8 / 5, clientShipping := 999 / 100,
    clientTotal := 3159 / 100, shippingAddress := addrW, billingAddress := addrW,
    paymentMethod := "card" }

/-- Concrete checkout request carrying zeroed-out client-submitted totals. -/
def reqZeroW : OrderRequest :=
  { clientSubtotal := 0, clientTax := 0, clientShipping := 0, clientTotal := 0,
    shippingAddress := addrW, billingAddress := addrW, paymentMethod := "card" }

/-- Concrete store: five units of stock everywhere, the demo cart, no orders. -/
def stW : ServerState :=
  { stock := fun _ => 5, products := [], cart := [demoItem], orders := [] }

/-- The order the demo checkout produces. -/
def orderW : OrderData := mkOrderData 1000 [demoItem] addrW addrW "card"

/-- Store state right after the demo checkout. -/
def st1W : ServerState :=
  { stock := fun p =>
      if p = demoItem.productId then stW.stock p - demoItem.quantity else stW.stock p,
    products := [], cart := [], orders := [orderW] }

/-- Store state right after the demo checkout's order is cancelled. -/
def st2W : ServerState :=
  { stock := releaseAll st1W.stock orderW.items, products := st1W.products,
    cart := st1W.cart, orders := [{ orderW with status := "cancelled" }] }

/-- Store holding just the demo order, pending, with full stock. -/
def stUpdW : ServerState :=
  { stock := fun _ => 5, products := [], cart := [], orders := [orderW] }

/-- The same store after the demo order moves to processing. -/
def stUpdPW : ServerState :=
  { stock := fun _ => 5, products := [], cart := [],
    orders := [{ orderW with status := "processing" }] }

/-- Concrete catalog entry matching the demo cart line. -/
def prodW : Product :=
  { id := 1, name := "Organic Onesie", price := 10, stock := 5 }

/-- Store with an empty cart. -/
def stEmptyW : ServerState :=
  { stock := fun _ => 5, products := [], cart := [], orders := [] }

/-- Stock function with exactly one unit of every product. -/
def oneStockW : ℕ → ℕ := fun _ => 1

/-- Closed instance of C2: at a concrete store, a request with zeroed-out
client totals produces exactly the same persisted order as the honest one,
with all four amounts recomputed from the stored cart. -/
theorem server_recomputes_totals_witness :
    createOrder stW 1000 reqZeroW = Except.ok (st1W, orderW) ∧
    orderW.subtotal = subtotal stW.cart ∧
    orderW.shipping = shippingFee (subtotal stW.cart) ∧
    orderW.tax = taxAmount (subtotal stW.cart) ∧
    orderW.total = totalAmount (subtotal stW.cart) :=
  server_recomputes_totals stW st1W 1000 reqW reqZeroW orderW rfl rfl rfl rfl

/-- Closed instance of C3 at the demo order and a pending-to-processing
update. -/
theorem total_equation_invariant_witness :
    (mkOrderData 1000 [demoItem] addrW addrW "card").total =
      (mkOrderData 1000 [demoItem] addrW addrW "card").subtotal +
        (mkOrderData 1000 [demoItem] addrW addrW "card").tax +
        (mkOrderData 1000 [demoItem] addrW addrW "card").shipping ∧
    stUpdPW.orders.map (fun o => (o.subtotal, o.tax, o.shipping, o.total)) =
      stUpdW.orders.map (fun o => (o.subtotal, o.tax, o.shipping, o.total)) :=
  total_equation_invariant 1000 [demoItem] addrW addrW "card"
    stUpdW 0 "processing" stUpdPW rfl

/-- Closed instance of C4 at the demo order, a catalog edit, a catalog
delete and a pending-to-processing update. -/
theorem denormalized_items_frozen_witness :
    (mkOrderData 1000 [demoItem] addrW addrW "card").subtotal =
      ((mkOrderData 1000 [demoItem] addrW addrW "card").items.map
        fun i => i.price * (i.quantity : ℚ)).sum ∧
    (updateProduct stUpdW 1 prodW).orders = stUpdW.orders ∧
    (deleteProduct stUpdW 1).orders = stUpdW.orders ∧
    stUpdPW.orders.map OrderData.items = stUpdW.orders.map OrderData.items :=
  denormalized_items_frozen 1000 [demoItem] addrW addrW "card"
    stUpdW 0 "processing" stUpdPW 1 prodW rfl

/-- Closed instance of C5 at the pending demo order and a cancellation
request. -/
theorem update_status_state_machine_witness :
    succeeded (updateStatus stUpdW 0 "cancelled") =
      legalTransition orderW.status "cancelled" ∧
    (updateStatus stUpdW 0 "cancelled" =
        Except.error OrderError.illegalTransition ↔
      legalTransition orderW.status "cancelled" = false) ∧
    legalTransition "delivered" "processing" = false ∧
    legalTransition "pending" "cancelled" = true :=
  update_status_state_machine stUpdW 0 orderW "cancelled" rfl

/-- Closed instance of C6 at a concrete empty-cart store. -/
theorem empty_cart_fails_witness :
    createOrder stEmptyW 1000 reqW = Except.error OrderError.emptyCart :=
  empty_cart_fails stEmptyW 1000 reqW rfl

/-- Closed instance of C7 at a stock function with exactly one unit. -/
theorem concurrent_reserve_last_unit_witness :
    reserveStock oneStockW 0 1 =
      Except.ok (fun p => if p = 0 then oneStockW p - 1 else oneStockW p) ∧
    (fun p => if p = 0 then oneStockW p - 1 else oneStockW p) 0 = 0 ∧
    reserveStock (fun p => if p = 0 then oneStockW p - 1 else oneStockW p) 0 1 =
      Except.error OrderError.insufficientStock :=
  concurrent_reserve_last_unit oneStockW 0 rfl

/-- Closed instance of C8: the demo checkout followed by a cancellation
restores the original stock function. -/
theorem cancel_restores_stock_witness : st2W.stock = stW.stock :=
  cancel_restores_stock stW st1W st2W 1000 reqW orderW rfl rfl rfl

/-- Second demo cart line, distinct from the first. -/
def demoItemB : CartItem :=
  { productId := 2, productName := "Cozy Sleeper", quantity := 1
    size := "6M", color := "Pink", price := 12 }

/-- C9 counterexample: two distinct orders created in the same millisecond
(timestamp 1000) carry the same order number, because the number is derived
solely from the creation timestamp. -/
theorem order_number_collision :
    mkOrderData 1000 [demoItem] addrW addrW "card" ≠
      mkOrderData 1000 [demoItemB] addrW addrW "card" ∧
    (mkOrderData 1000 [demoItem] addrW addrW "card").orderNumber =
      (mkOrderData 1000 [demoItemB] addrW addrW "card").orderNumber := by
  constructor
  · intro h
    have h2 := congrArg (fun od => od.items.map OrderItemData.productName) h
    simp [mkOrderData, orderItemOf, demoItem, demoItemB] at h2
  · rfl

/-- Big-endian decimal digits of a natural number. -/
def decDigits (n : ℕ) : List ℕ :=
  if _h : n < 10 then [n]
  else decDigits (n / 10) ++ [n % 10]
termination_by n
decreasing_by exact Nat.div_lt_self (by omega) (by omega)

/-- Value of a big-endian decimal digit list. -/
def decVal (l : List ℕ) : ℕ :=
  l.foldl (fun a d => a * 10 + d) 0

/-- Appending one digit multiplies the value by ten and adds the digit. -/
theorem decVal_append_digit (l : List ℕ) (d : ℕ) :
    decVal (l ++ [d]) = decVal l * 10 + d := by
  unfold decVal
  rw [List.foldl_append]
  rfl

/-- The decimal digit list evaluates back to the number. -/
theorem decVal_decDigits (n : ℕ) : decVal (decDigits n) = n := by
  induction n using Nat.strong_induction_on with
  | _ n ih =>
    rw [decDigits]
    split
    · next h =>
      simp [decVal]
    · next h =>
      rw [decVal_append_digit,
        ih (n / 10) (Nat.div_lt_self (by omega) (by omega))]
      omega

/-- Every entry of the decimal digit list is a digit. -/
theorem decDigits_lt_ten (n : ℕ) : ∀ d ∈ decDigits n, d < 10 := by
  induction n using Nat.strong_induction_on with
  | _ n ih =>
    rw [decDigits]
    split
    · next h =>
      intro d hd
      simp only [List.mem_singleton] at hd
      omega
    · next h =>
      intro d hd
      rw [List.mem_append] at hd
      rcases hd with hd | hd
      · exact ih (n / 10) (Nat.div_lt_self (by omega) (by omega)) d hd
      · simp only [List.mem_singleton] at hd
        subst hd
        exact Nat.mod_lt _ (by omega)

/-- The digit character map is injective on digits. -/
theorem digitChar_inj_lt : ∀ a, a < 10 → ∀ b, b < 10 →
    Nat.digitChar a = Nat.digitChar b → a = b := by
  decide

/-- Mapping digit lists through the digit character map is injective. -/
theorem map_digitChar_inj (l1 : List ℕ) : ∀ l2 : List ℕ,
    (∀ d ∈ l1, d < 10) → (∀ d ∈ l2, d < 10) →
    l1.map Nat.digitChar = l2.map Nat.digitChar → l1 = l2 := by
  induction l1 with
  | nil =>
    intro l2 _ _ h
    cases l2 with
    | nil => rfl
    | cons y ys => simp at h
  | cons x xs ih =>
    intro l2 h1 h2 h
    cases l2 with
    | nil => simp at h
    | cons y ys =>
      simp only [List.map_cons, List.cons.injEq] at h
      obtain ⟨hxy, hrest⟩ := h
      have hx : x = y :=
        digitChar_inj_lt x (h1 x (by simp)) y (h2 y (by simp)) hxy
      subst hx
      rw [ih ys (fun d hd => h1 d (by simp [hd])) (fun d hd => h2 d (by simp [hd]))
        hrest]

/-- With enough fuel, the core digit printer produces the decimal digit list
mapped through the digit character table. -/
theorem toDigitsCore_eq_decDigits (fuel : ℕ) : ∀ (n : ℕ) (ds : List Char),
    n < fuel →
    Nat.toDigitsCore 10 fuel n ds = (decDigits n).map Nat.digitChar ++ ds := by
  induction fuel with
  | zero => omega
  | succ f ih =>
    intro n ds hfuel
    simp only [Nat.toDigitsCore]
    by_cases h0 : n / 10 = 0
    · rw [if_pos h0]
      have hn : n < 10 := by omega
      rw [decDigits, dif_pos hn]
      have hmod : n % 10 = n := Nat.mod_eq_of_lt hn
      simp [hmod]
    · rw [if_neg h0]
      have hn : ¬ n < 10 := by omega
      rw [decDigits, dif_neg hn]
      rw [ih (n / 10) _ (by omega)]
      simp [List.append_assoc]

/-- The decimal string representation of a natural number is injective. -/
theorem nat_repr_injective (m n : ℕ) (h : Nat.repr m = Nat.repr n) : m = n := by
  unfold Nat.repr at h
  have h2 : Nat.toDigits 10 m = Nat.toDigits 10 n := by
    have h1 := congrArg String.data h
    simpa [List.asString] using h1
  rw [Nat.toDigits, Nat.toDigits,
    toDigitsCore_eq_decDigits (m + 1) m [] (Nat.lt_succ_self m),
    toDigitsCore_eq_decDigits (n + 1) n [] (Nat.lt_succ_self n)] at h2
  simp only [List.append_nil] at h2
  have h3 := map_digitChar_inj (decDigits m) (decDigits n)
    (decDigits_lt_ten m) (decDigits_lt_ten n) h2
  have h4 := congrArg decVal h3
  rwa [decVal_decDigits, decVal_decDigits] at h4

/-- C9 amended: the order number is the string BP- followed by the decimal
creation timestamp in milliseconds, so any two orders created at distinct
timestamps carry distinct order numbers (uniqueness can fail only for
orders created in the very same millisecond). -/
theorem order_numbers_distinct_timestamps (t1 t2 : ℕ)
    (items1 items2 : List CartItem) (sa1 ba1 sa2 ba2 : Address)
    (pm1 pm2 : String) (h : t1 ≠ t2) :
    (mkOrderData t1 items1 sa1 ba1 pm1).orderNumber ≠
      (mkOrderData t2 items2 sa2 ba2 pm2).orderNumber := by
  intro he
  apply h
  have he2 : "BP-" ++ toString t1 = "BP-" ++ toString t2 := he
  have hd := congrArg String.data he2
  simp only [String.data_append] at hd
  have hc := List.append_cancel_left hd
  exact nat_repr_injective t1 t2 (String.ext hc)

/-- Closed instance of the amended C9 at timestamps 1 and 2. -/
theorem order_numbers_distinct_timestamps_witness :
    (mkOrderData 1 [demoItem] addrW addrW "card").orderNumber ≠
      (mkOrderData 2 [demoItem] addrW addrW "card").orderNumber :=
  order_numbers_distinct_timestamps 1 2 [demoItem] [demoItem]
    addrW addrW addrW addrW "card" "card" (by omega)

/-- Quantity decrement control of the product detail page (part_002 line
301): the click handler clamps with Math.max(1, quantity - 1). -/
def decrementClick (quantity : ℕ) : ℕ := max 1 (quantity - 1)

/-- Quantity decrement control's disabled flag (part_002 line 302):
disabled when quantity <= 1. -/
def decrementDisabled (quantity : ℕ) : Bool := quantity ≤ 1

/-- Quantity increment control of the product detail page (part_002 line
310): the click handler sets quantity + 1. -/
def incrementClick (quantity : ℕ) : ℕ := quantity + 1

/-- Quantity increment control's disabled flag (part_002 line 311):
disabled when quantity >= product.stock. -/
def incrementDisabled (stock quantity : ℕ) : Bool := stock ≤ quantity

/-- Add-to-cart button's disabled flag (part_002 line 326): disabled when
product.stock === 0 or while the add-to-cart request is pending. -/
def addToCartDisabled (stock : ℕ) (pending : Bool) : Bool :=
  (stock == 0) || pending

/-- Quantity values reachable on the product detail page: the state starts
at 1 and changes only through the enabled decrement and increment controls. -/
inductive QtyReachable (stock : ℕ) : ℕ → Prop
  | init : QtyReachable stock 1
  | dec (q : ℕ) : QtyReachable stock q → decrementDisabled q = false →
      QtyReachable stock (decrementClick q)
  | inc (q : ℕ) : QtyReachable stock q → incrementDisabled stock q = false →
      QtyReachable stock (incrementClick q)

/-- C10: whenever the add-to-cart action is enabled, the selected quantity
satisfies 1 <= quantity <= product.stock: the decrement control is disabled
at 1 and clamps with max(1, quantity - 1), the increment control is
disabled once the stock is reached, and add-to-cart is disabled whenever
the stock is 0. -/
theorem quantity_within_stock_bounds (stock q : ℕ) (pending : Bool)
    (henabled : addToCartDisabled stock pending = false)
    (hq : QtyReachable stock q) :
    1 ≤ q ∧ q ≤ stock := by
  have hstock : stock ≠ 0 := by
    unfold addToCartDisabled at henabled
    simp only [Bool.or_eq_false_iff, beq_eq_false_iff_ne, ne_eq] at henabled
    exact henabled.1
  induction hq with
  | init => omega
  | dec q hq hdis ih =>
    unfold decrementClick
    unfold decrementDisabled at hdis
    simp only [decide_eq_false_iff_not, not_le] at hdis
    omega
  | inc q hq hdis ih =>
    unfold incrementClick
    unfold incrementDisabled at hdis
    simp only [decide_eq_false_iff_not, not_le] at hdis
    omega

/-- Closed instance of C10 at stock 3, no pending request and the quantity
reached by one increment click. -/
theorem quantity_within_stock_bounds_witness : 1 ≤ 2 ∧ 2 ≤ 3 :=
  quantity_within_stock_bounds 3 2 false rfl
    (QtyReachable.inc 1 QtyReachable.init rfl)

end BabyPlus
